import Mathlib

/-!
Shallow embedding of the interrupt-driven device layer of the universeK
kernel: the PIC driver (src/src/interrupts/pic.c), the vectored dispatch
core and handler registry (src/unnamed/part_010), the PS/2 keyboard
driver (src/unnamed/part_013), the PS/2 mouse driver
(src/src/drivers/mouse.c) and the driver registry
(src/src/drivers/driver.c).  Machine bytes are Nat values reduced mod
256 where the C code stores them in uint8_t objects; C int values are
Int; port output is modelled as an explicit trace of writes.
-/

namespace UniverseK

/-- Status codes from the status_t enum in kernel/types.h. -/
def STATUS_SUCCESS : Int := 0

/-- STATUS_INVALID_PARAM from the status_t enum. -/
def STATUS_INVALID_PARAM : Int := -3

/-- STATUS_DEVICE_ERROR from the status_t enum. -/
def STATUS_DEVICE_ERROR : Int := -5

/-- STATUS_BUSY from the status_t enum. -/
def STATUS_BUSY : Int := -7

/-- DRIVER_OK from driver.h. -/
def DRIVER_OK : Int := 0

/-- DRIVER_ERROR from driver.h. -/
def DRIVER_ERROR : Int := -1

/-- One byte written to an I/O port, the observable effect of
port_write_byte in io.c. -/
structure PortWrite where
  port : Nat
  val : Nat
deriving DecidableEq

/-- Master PIC command port, pic.c. -/
def PIC1_COMMAND : Nat := 0x20

/-- Slave PIC command port, pic.c. -/
def PIC2_COMMAND : Nat := 0xA0

/-- EOI command byte, pic.c. -/
def PIC_EOI : Nat := 0x20

/-- pic_send_eoi from pic.c: for irq at least 8 write EOI to the slave
command port first, then always write EOI to the master command port.
The returned list is the sequence of port writes the call performs. -/
def pic_send_eoi (irq : Nat) : List PortWrite :=
  (if irq ≥ 8 then [⟨PIC2_COMMAND, PIC_EOI⟩] else []) ++ [⟨PIC1_COMMAND, PIC_EOI⟩]

/-- Writes to the PIC command ports within a trace: the EOI accounting
view of a port-write trace. -/
def eoiWrites (t : List PortWrite) : List PortWrite :=
  t.filter (fun w => w.port == PIC1_COMMAND || w.port == PIC2_COMMAND)

/-- MAX_INTERRUPTS from part_010, defined there as 255 with the comment
that int_t is uint8_t. -/
def MAX_INTERRUPTS : Nat := 255

/-- Number of entries of the static idt array in part_010, declared as
struct idt_entry idt[MAX_INTERRUPTS]. -/
def idtEntryCount : Nat := MAX_INTERRUPTS

/-- The interrupt_handlers array of part_010, modelled as a total map
from vector number to a handler identifier, 0 meaning NULL. -/
def IntRegistry := Nat → Nat

/-- The registry right after interrupt_init, which sets every entry to
NULL. -/
def initIntRegistry : IntRegistry := fun _ => 0

/-- interrupt_register_handler from part_010: reject int_no at or above
MAX_INTERRUPTS with STATUS_INVALID_PARAM, otherwise store the handler in
the slot for int_no and return STATUS_SUCCESS. -/
def interrupt_register_handler (int_no : Nat) (handler : Nat) (st : IntRegistry) :
    Int × IntRegistry :=
  if int_no ≥ MAX_INTERRUPTS then (STATUS_INVALID_PARAM, st)
  else (STATUS_SUCCESS, fun v => if v = int_no then handler else st v)

/-- interrupt_unregister_handler from part_010: reject int_no at or
above MAX_INTERRUPTS, otherwise set the slot for int_no to NULL and
return STATUS_SUCCESS. -/
def interrupt_unregister_handler (int_no : Nat) (st : IntRegistry) :
    Int × IntRegistry :=
  if int_no ≥ MAX_INTERRUPTS then (STATUS_INVALID_PARAM, st)
  else (STATUS_SUCCESS, fun v => if v = int_no then 0 else st v)

/-- The keyboard modifier state from the keyboard_state struct of
part_013 (the handler list is modelled separately). -/
structure KbState where
  num_lock : Bool
  caps_lock : Bool
  scroll_lock : Bool
  shift : Bool
  ctrl : Bool
  alt : Bool
deriving DecidableEq

/-- keyboard_state after keyboard_init resets it: every flag false. -/
def initKbState : KbState :=
  { num_lock := false, caps_lock := false, scroll_lock := false
    shift := false, ctrl := false, alt := false }

/-- The 128-entry US layout table keyboard_map of part_013, as ASCII
codes; the C initializer lists 88 values and zero-fills the rest. -/
def keyboard_map : List Nat :=
  [0, 27, 49, 50, 51, 52, 53, 54, 55, 56, 57, 48, 45, 61, 8,
   9, 113, 119, 101, 114, 116, 121, 117, 105, 111, 112, 91, 93, 10,
   0, 97, 115, 100, 102, 103, 104, 106, 107, 108, 59, 39, 96,
   0, 92, 122, 120, 99, 118, 98, 110, 109, 44, 46, 47, 0,
   42, 0, 32, 0, 0, 0, 0, 0, 0, 0, 0, 0, 0, 0, 0, 0, 0,
   0, 0, 0, 0, 0, 0, 0, 0, 0, 0, 0, 0, 0, 0, 0, 0] ++
  List.replicate 40 0

/-- A decoded keyboard event, keyboard_event_t from keyboard.h; key is
the ASCII code, 0 meaning no character. -/
structure KbEvent where
  scancode : Nat
  key : Nat
  pressed : Bool
  shift : Bool
  ctrl : Bool
  alt : Bool
  caps_lock : Bool
  num_lock : Bool
  scroll_lock : Bool
deriving DecidableEq

/-- The ASCII translation step of keyboard_process_scancode: table
lookup for scancodes below 128 with upper-case substitution when the
shift snapshot is active and the character is a lower-case letter. -/
def keyMap (st : KbState) (sc : Nat) : Nat :=
  if sc < 128 then
    let k := keyboard_map.getD sc 0
    if st.shift then (if 97 ≤ k ∧ k ≤ 122 then k - 32 else k) else k
  else 0

/-- Event construction in keyboard_process_scancode: raw scancode,
translated key from the masked scancode, pressed flag and a snapshot of
the updated modifier state. -/
def mkKbEvent (sc0 sc : Nat) (pressed : Bool) (st : KbState) : KbEvent :=
  { scancode := sc0, key := keyMap st sc, pressed := pressed
    shift := st.shift, ctrl := st.ctrl, alt := st.alt
    caps_lock := st.caps_lock, num_lock := st.num_lock
    scroll_lock := st.scroll_lock }

/-- keyboard_update_leds from part_013: the LED byte it sends, built
from the latched lock bits (num = 2, caps = 4, scroll = 1). -/
def keyboard_update_leds (st : KbState) : Nat :=
  (if st.num_lock then 2 else 0) |||
  (if st.caps_lock then 4 else 0) |||
  (if st.scroll_lock then 1 else 0)

/-- keyboard_process_scancode from part_013 on the modifier state:
returns the updated state, the event handed to the consumer list, and
the list of LED resync exchanges performed (one element, the LED byte,
per keyboard_update_leds call).  A release (bit 7 set) clears momentary
modifiers for the shift, ctrl and alt scancodes; a press sets them, and
toggles a lock bit plus one LED resync for the num, caps and scroll
lock scancodes. -/
def keyboard_process_scancode (st : KbState) (scancode : Nat) :
    KbState × KbEvent × List Nat :=
  let sc0 := scancode % 256
  if sc0 &&& 0x80 ≠ 0 then
    let sc := sc0 &&& 0x7F
    let st1 :=
      if sc = 0x2A ∨ sc = 0x36 then { st with shift := false }
      else if sc = 0x1D then { st with ctrl := false }
      else if sc = 0x38 then { st with alt := false }
      else st
    (st1, mkKbEvent sc0 sc false st1, [])
  else
    let sc := sc0
    let r :=
      if sc = 0x2A ∨ sc = 0x36 then ({ st with shift := true }, ([] : List Nat))
      else if sc = 0x1D then ({ st with ctrl := true }, [])
      else if sc = 0x38 then ({ st with alt := true }, [])
      else if sc = 0x45 then
        let st1 := { st with num_lock := !st.num_lock }
        (st1, [keyboard_update_leds st1])
      else if sc = 0x3A then
        let st1 := { st with caps_lock := !st.caps_lock }
        (st1, [keyboard_update_leds st1])
      else if sc = 0x46 then
        let st1 := { st with scroll_lock := !st.scroll_lock }
        (st1, [keyboard_update_leds st1])
      else (st, [])
    (r.1, mkKbEvent sc0 sc true r.1, r.2)

/-- KEYBOARD_DATA port from part_013. -/
def KEYBOARD_DATA : Nat := 0x60

/-- KEYBOARD_CMD_SET_LEDS command byte from part_013. -/
def KEYBOARD_CMD_SET_LEDS : Nat := 0xED

/-- The port writes of one keyboard_update_leds call: the set-LEDs
command byte then the LED byte, both to the keyboard data port (the two
ACK reads are not writes). -/
def ledExchangeWrites (leds : Nat) : List PortWrite :=
  [⟨KEYBOARD_DATA, KEYBOARD_CMD_SET_LEDS⟩, ⟨KEYBOARD_DATA, leds⟩]

/-- keyboard_interrupt from part_013: process the scancode read from the
data port, then send EOI for IRQ 1.  Returns the new modifier state and
the port writes performed, LED exchanges first, EOI last. -/
def keyboard_interrupt (st : KbState) (scancode : Nat) :
    KbState × List PortWrite :=
  let r := keyboard_process_scancode st scancode
  (r.1, (r.2.2.map ledExchangeWrites).flatten ++ pic_send_eoi 1)

/-- MAX_KEYBOARD_HANDLERS from part_013. -/
def MAX_KEYBOARD_HANDLERS : Nat := 8

/-- keyboard_register_handler from part_013 on the consumer list (the
first num_handlers slots of the handlers array, handlers as nonzero
identifiers with 0 meaning NULL): reject NULL, reject a full list with
STATUS_BUSY, otherwise append at the end. -/
def keyboard_register_handler (h : Nat) (st : List Nat) : Int × List Nat :=
  if h = 0 then (STATUS_INVALID_PARAM, st)
  else if st.length ≥ MAX_KEYBOARD_HANDLERS then (STATUS_BUSY, st)
  else (STATUS_SUCCESS, st ++ [h])

/-- keyboard_unregister_handler from part_013: scan for the first slot
holding the handler, shift the following slots down by one, decrement
the count and stop; when the handler is absent the list is unchanged. -/
def keyboard_unregister_handler (h : Nat) : List Nat → List Nat
  | [] => []
  | x :: xs => if x = h then xs else x :: keyboard_unregister_handler h xs

/-- The mouse decode state of mouse.c: the static mouse_x, mouse_y
(C int), mouse_cycle (uint8_t) and the three packet buffer bytes
(uint8_t each). -/
structure MouseState where
  x : Int
  y : Int
  cycle : Nat
  packet0 : Nat
  packet1 : Nat
  packet2 : Nat
deriving DecidableEq

/-- The initial mouse state: position (0,0), cycle 0, empty buffer. -/
def initMouseState : MouseState :=
  { x := 0, y := 0, cycle := 0, packet0 := 0, packet1 := 0, packet2 := 0 }

/-- struct mouse_packet from mouse.h, the event delivered to the
registered consumer. -/
structure MousePacketEvent where
  buttons : Nat
  x : Int
  y : Int
  scroll : Nat
deriving DecidableEq

/-- The C cast (int16_t) applied to a stored unsigned value: reduce mod
2^16 and reinterpret the high bit as the sign. -/
def toInt16 (n : Nat) : Int :=
  if n % 65536 < 32768 then ((n % 65536 : Nat) : Int)
  else ((n % 65536 : Nat) : Int) - 65536

/-- The x clamp of mouse.c, in source order: raise to 0 first, then cap
at 79. -/
def clampX (x : Int) : Int :=
  let a := if x < 0 then 0 else x
  if a > 79 then 79 else a

/-- The y clamp of mouse.c, in source order: raise to 0 first, then cap
at 24. -/
def clampY (y : Int) : Int :=
  let a := if y < 0 then 0 else y
  if a > 24 then 24 else a

/-- The switch on mouse_cycle inside mouse_handler of mouse.c, fed one
data byte.  Cycle 0 stores byte 0 and advances only when bit 3 is set;
cycle 1 stores the X byte; cycle 2 stores the Y byte, performs the
sign-extension writes of the source (a store of value OR 0xFF00 into a
uint8_t buffer slot, hence reduced mod 256), adds the (int16_t) cast of
the X slot to x, subtracts the cast of the Y slot from y, clamps, and
delivers a packet when a consumer is registered.  Returns the new state
and the delivered event, if any. -/
def mouse_decode (handlerRegistered : Bool) (st : MouseState) (data : Nat) :
    MouseState × Option MousePacketEvent :=
  let d := data % 256
  if st.cycle = 0 then
    let st1 := { st with packet0 := d }
    if d &&& 0x08 ≠ 0 then ({ st1 with cycle := st1.cycle + 1 }, none)
    else (st1, none)
  else if st.cycle = 1 then
    ({ st with packet1 := d, cycle := st.cycle + 1 }, none)
  else if st.cycle = 2 then
    let st1 := { st with packet2 := d }
    let p1 := if st1.packet0 &&& 0x10 ≠ 0 then (st1.packet1 ||| 0xFF00) % 256
              else st1.packet1
    let p2 := if st1.packet0 &&& 0x20 ≠ 0 then (st1.packet2 ||| 0xFF00) % 256
              else st1.packet2
    let x1 := clampX (st1.x + toInt16 p1)
    let y1 := clampY (st1.y - toInt16 p2)
    let ev : Option MousePacketEvent :=
      if handlerRegistered then
        some { buttons := st1.packet0 &&& 0x07, x := x1, y := y1
               scroll := (st1.packet0 >>> 3) &&& 0x0F }
      else none
    ({ st1 with packet1 := p1, packet2 := p2, x := x1, y := y1, cycle := 0 }, ev)
  else (st, none)

/-- Feeding a byte sequence to the mouse decoder, collecting the decoded
events in order. -/
def mouse_feed (handlerRegistered : Bool) (st : MouseState) (bytes : List Nat) :
    MouseState × List MousePacketEvent :=
  match bytes with
  | [] => (st, [])
  | b :: rest =>
    let r := mouse_decode handlerRegistered st b
    let s := mouse_feed handlerRegistered r.1 rest
    (s.1, r.2.toList ++ s.2)

/-- MOUSE_IRQ from mouse.c. -/
def MOUSE_IRQ : Nat := 12

/-- mouse_handler from mouse.c: when the status byte read from port 0x64
lacks bit 5 the interrupt is spurious and the function returns at once,
before the EOI line; otherwise it consumes the data byte through the
cycle switch and then sends EOI for IRQ 12.  Returns the new state, the
delivered event if any, and the port writes performed. -/
def mouse_handler (handlerRegistered : Bool) (st : MouseState)
    (status data : Nat) : MouseState × Option MousePacketEvent × List PortWrite :=
  if (status % 256) &&& 0x20 = 0 then (st, none, [])
  else
    let r := mouse_decode handlerRegistered st data
    (r.1, r.2, pic_send_eoi MOUSE_IRQ)

/-- The sign-extension the spec describes for a movement byte: when the
corresponding sign bit of byte 0 is set the byte denotes a negative
16-bit value, byte OR 0xFF00 reinterpreted as int16, that is byte minus
256.  Second definition for comparison with the source behaviour. -/
def specSignExtend (signBit : Bool) (b : Nat) : Int :=
  if signBit then (b % 256 : Nat) - 256 else (b % 256 : Nat)

/-- A driver descriptor from driver.h; the name pointer is modelled as
an optional abstract name with strcmp equality, NULL as none. -/
structure Driver where
  name : Option Nat
  dtype : Nat
deriving DecidableEq

/-- MAX_DRIVERS from driver.c. -/
def MAX_DRIVERS : Nat := 32

/-- The name comparison guard of the duplicate scan in register_driver:
both name pointers non-NULL and strcmp equal. -/
def namesMatch (a b : Option Nat) : Bool :=
  match a, b with
  | some x, some y => x == y
  | _, _ => false

/-- register_driver from driver.c on the registered-drivers list: reject
a NULL descriptor, reject a full registry, reject a descriptor whose
non-NULL name matches a registered non-NULL name, otherwise append. -/
def register_driver (drv : Option Driver) (st : List Driver) :
    Int × List Driver :=
  match drv with
  | none => (DRIVER_ERROR, st)
  | some d =>
    if st.length ≥ MAX_DRIVERS then (DRIVER_ERROR, st)
    else if st.any (fun e => namesMatch e.name d.name) then (DRIVER_ERROR, st)
    else (DRIVER_OK, st ++ [d])

/-- Sequential registration of a list of descriptors, collecting the
returned status codes. -/
def registerAll (ds : List Driver) (st : List Driver) :
    List Int × List Driver :=
  match ds with
  | [] => ([], st)
  | d :: rest =>
    let r := register_driver (some d) st
    let s := registerAll rest r.2
    (r.1 :: s.1, s.2)

/-- Thirty-three descriptors with pairwise distinct names, used to
exercise the registry capacity. -/
def testDrivers : List Driver :=
  (List.range 33).map (fun i => { name := some i, dtype := 1 })

/-- The two interrupt handlers the boot path registers through
interrupt_register_handler: keyboard_interrupt at vector 33 and
mouse_handler at vector 44. -/
inductive HandlerFn
  | keyboardHandler
  | mouseHandler
deriving DecidableEq

/-- The machine state seen by the dispatch path: the keyboard modifier
state, the mouse decode state, whether a mouse consumer callback is
registered, and the interrupt_handlers array as a map from vector
number to the installed handler, none meaning NULL. -/
structure SysState where
  kb : KbState
  mouse : MouseState
  mouseUserHandler : Bool
  handlers : Nat → Option HandlerFn

/-- The bytes the device ports would yield during one interrupt: the
keyboard scancode at port 0x60, and the mouse status and data bytes. -/
structure DeviceInput where
  kbScancode : Nat
  mouseStatus : Nat
  mouseData : Nat

/-- Running one registered handler on the system state, returning the
new state and the port writes the handler performs. -/
def run_handler (f : HandlerFn) (s : SysState) (inp : DeviceInput) :
    SysState × List PortWrite :=
  match f with
  | HandlerFn.keyboardHandler =>
    let r := keyboard_interrupt s.kb inp.kbScancode
    ({ s with kb := r.1 }, r.2)
  | HandlerFn.mouseHandler =>
    let r := mouse_handler s.mouseUserHandler s.mouse inp.mouseStatus inp.mouseData
    ({ s with mouse := r.1 }, r.2.2)

/-- interrupt_handler from part_010, the common dispatch routine: look
up the handler slot for the vector number of the context (int_no is
indexed through the uint8_t-typed array bound, reduced mod 256) and
invoke it when non-NULL; an unhandled vector is only logged.  The
routine performs no port writes of its own. -/
def interrupt_handler (s : SysState) (inp : DeviceInput) (int_no : Nat) :
    SysState × List PortWrite :=
  match s.handlers (int_no % 256) with
  | some f => run_handler f s inp
  | none => (s, [])

/-- A system state with an empty handler registry. -/
def emptySysState : SysState :=
  { kb := initKbState, mouse := initMouseState, mouseUserHandler := true
    handlers := fun _ => none }

/-- A system state with only the keyboard handler installed, at vector
33 as keyboard_init does. -/
def kbSysState : SysState :=
  { kb := initKbState, mouse := initMouseState, mouseUserHandler := true
    handlers := fun v => if v = 33 then some HandlerFn.keyboardHandler else none }

/-- A system state with only the mouse handler installed, at vector 44
as init_mouse does. -/
def mouseSysState : SysState :=
  { kb := initKbState, mouse := initMouseState, mouseUserHandler := true
    handlers := fun v => if v = 44 then some HandlerFn.mouseHandler else none }

/-- A device input with a non-spurious mouse status byte (bit 5 set)
and a plain key press. -/
def sampleInput : DeviceInput :=
  { kbScancode := 0x1E, mouseStatus := 0x20, mouseData := 0x08 }

/-- The grid-range invariant of the accumulated mouse position. -/
def mouseInGrid (st : MouseState) : Prop :=
  0 ≤ st.x ∧ st.x ≤ 79 ∧ 0 ≤ st.y ∧ st.y ≤ 24

lemma eoiWrites_append (a b : List PortWrite) :
    eoiWrites (a ++ b) = eoiWrites a ++ eoiWrites b := by
  simp [eoiWrites, List.filter_append]

lemma eoiWrites_led_flatten (leds : List Nat) :
    eoiWrites ((leds.map ledExchangeWrites).flatten) = [] := by
  induction leds with
  | nil => rfl
  | cons b rest ih =>
    simp only [List.map_cons, List.flatten_cons, eoiWrites_append, ih]
    rfl

lemma eoiWrites_pic_send_eoi (irq : Nat) :
    eoiWrites (pic_send_eoi irq) = pic_send_eoi irq := by
  unfold pic_send_eoi eoiWrites
  by_cases h : irq ≥ 8 <;> simp [h, PIC1_COMMAND, PIC2_COMMAND]

lemma clampX_bounds (x : Int) : 0 ≤ clampX x ∧ clampX x ≤ 79 := by
  simp only [clampX]
  split_ifs <;> omega

lemma clampY_bounds (y : Int) : 0 ≤ clampY y ∧ clampY y ≤ 24 := by
  simp only [clampY]
  split_ifs <;> omega

lemma mouse_decode_inGrid (hr : Bool) (st : MouseState) (b : Nat)
    (hst : mouseInGrid st) : mouseInGrid (mouse_decode hr st b).1 := by
  simp only [mouse_decode]
  split_ifs <;>
    first
      | exact hst
      | exact ⟨(clampX_bounds _).1, (clampX_bounds _).2,
          (clampY_bounds _).1, (clampY_bounds _).2⟩

lemma mouse_feed_inGrid (hr : Bool) (bytes : List Nat) (st : MouseState)
    (hst : mouseInGrid st) : mouseInGrid (mouse_feed hr st bytes).1 := by
  induction bytes generalizing st with
  | nil => exact hst
  | cons b rest ih => exact ih _ (mouse_decode_inGrid hr st b hst)

/-- C1: the property fails on the code.  Delivering vector 44
(IRQ line 12) to the dispatch routine with no handler registered emits
no port write at all, while the claim demands the slave-then-master EOI
pair that pic_send_eoi 12 would produce. -/
theorem c1_unhandled_no_eoi_counterexample :
    (interrupt_handler emptySysState sampleInput 44).2 = [] ∧
    pic_send_eoi 12 = [⟨PIC2_COMMAND, PIC_EOI⟩, ⟨PIC1_COMMAND, PIC_EOI⟩] ∧
    ([] : List PortWrite) ≠ pic_send_eoi 12 :=
  ⟨rfl, rfl, by decide⟩

/-- C1 amended: EOI is owned by the individual handlers, not the
dispatch routine.  Dispatching a vector with no registered handler
emits no port write; dispatching the keyboard handler emits exactly the
one-write EOI sequence of pic_send_eoi 1 among the PIC command writes;
dispatching the mouse handler on a non-spurious status byte emits
exactly the two-write slave-then-master sequence of pic_send_eoi 12;
and pic_send_eoi writes slave then master for a line at least 8, master
only below 8. -/
theorem c1_eoi_owned_by_handlers :
    (∀ s inp v, s.handlers (v % 256) = none →
      (interrupt_handler s inp v).2 = []) ∧
    (∀ s inp v, s.handlers (v % 256) = some HandlerFn.keyboardHandler →
      eoiWrites (interrupt_handler s inp v).2 = pic_send_eoi 1) ∧
    (∀ s inp v, s.handlers (v % 256) = some HandlerFn.mouseHandler →
      (inp.mouseStatus % 256) &&& 0x20 ≠ 0 →
      eoiWrites (interrupt_handler s inp v).2 = pic_send_eoi 12) ∧
    pic_send_eoi 1 = [⟨PIC1_COMMAND, PIC_EOI⟩] ∧
    pic_send_eoi 12 = [⟨PIC2_COMMAND, PIC_EOI⟩, ⟨PIC1_COMMAND, PIC_EOI⟩] := by
  refine ⟨?_, ?_, ?_, by decide, by decide⟩
  · intro s inp v h
    unfold interrupt_handler
    rw [h]
  · intro s inp v h
    unfold interrupt_handler
    rw [h]
    show eoiWrites (keyboard_interrupt s.kb inp.kbScancode).2 = pic_send_eoi 1
    unfold keyboard_interrupt
    rw [eoiWrites_append, eoiWrites_led_flatten, eoiWrites_pic_send_eoi]
    rfl
  · intro s inp v h hsp
    unfold interrupt_handler
    rw [h]
    show eoiWrites (mouse_handler s.mouseUserHandler s.mouse
      inp.mouseStatus inp.mouseData).2.2 = pic_send_eoi 12
    unfold mouse_handler
    rw [if_neg hsp]
    exact eoiWrites_pic_send_eoi MOUSE_IRQ

/-- C1 amended, witness: concrete dispatches of an unhandled vector, the
keyboard vector and the mouse vector. -/
theorem c1_eoi_owned_by_handlers_witness :
    (interrupt_handler emptySysState sampleInput 7).2 = [] ∧
    eoiWrites (interrupt_handler kbSysState sampleInput 33).2 = pic_send_eoi 1 ∧
    eoiWrites (interrupt_handler mouseSysState sampleInput 44).2 = pic_send_eoi 12 :=
  ⟨c1_eoi_owned_by_handlers.1 emptySysState sampleInput 7 rfl,
   c1_eoi_owned_by_handlers.2.1 kbSysState sampleInput 33 rfl,
   c1_eoi_owned_by_handlers.2.2.1 mouseSysState sampleInput 44 rfl (by decide)⟩

/-- C2: evaluation of the code at the failing input.  From the initial
position, a packet whose byte 0 is 0x18 (start bit and X sign bit set)
with X byte 0x05 leaves x at 5: the store of value OR 0xFF00 into the
uint8_t buffer slot truncates back to the original byte, so the claimed
sign extension never happens.  The spec-modelled sign extension of the
same byte gives -251, which the clamp would take to 0. -/
theorem c2_sign_extension_truncated :
    (mouse_feed true initMouseState [0x18, 0x05, 0x00]).1.x = 5 ∧
    ((0x05 ||| 0xFF00) % 256 : Nat) = 0x05 ∧
    specSignExtend true 0x05 = -251 ∧
    clampX (initMouseState.x + specSignExtend true 0x05) = 0 :=
  ⟨by decide, by decide, by decide, by decide⟩

/-- C3: from any decoder state at cycle 0, three bytes whose first has
bit 3 set yield exactly one decoded event and leave the cycle at 0,
while a first byte with bit 3 clear keeps the cycle at 0 and emits no
event. -/
theorem c3_packet_state_machine :
    (∀ st b0 b1 b2, st.cycle = 0 → (b0 % 256) &&& 0x08 ≠ 0 →
      (mouse_feed true st [b0, b1, b2]).2.length = 1 ∧
      (mouse_feed true st [b0, b1, b2]).1.cycle = 0) ∧
    (∀ st b, st.cycle = 0 → (b % 256) &&& 0x08 = 0 →
      (mouse_decode true st b).1.cycle = 0 ∧
      (mouse_decode true st b).2 = none) := by
  constructor
  · intro st b0 b1 b2 h0 h8
    simp [mouse_feed, mouse_decode, h0, h8]
  · intro st b h0 h8
    simp [mouse_decode, h0, h8]

/-- C3 witness: the concrete valid packet 0x08, 0x05, 0x03 from the
initial state, and the concrete invalid first byte 0x00. -/
theorem c3_packet_state_machine_witness :
    ((mouse_feed true initMouseState [0x08, 0x05, 0x03]).2.length = 1 ∧
     (mouse_feed true initMouseState [0x08, 0x05, 0x03]).1.cycle = 0) ∧
    ((mouse_decode true initMouseState 0x00).1.cycle = 0 ∧
     (mouse_decode true initMouseState 0x00).2 = none) :=
  ⟨c3_packet_state_machine.1 initMouseState 0x08 0x05 0x03 rfl (by decide),
   c3_packet_state_machine.2 initMouseState 0x00 rfl (by decide)⟩

/-- C4: from the initial position the accumulated pointer stays inside
the 80 by 25 cell grid after any byte sequence, and both clamps are
idempotent. -/
theorem c4_position_always_in_grid :
    (∀ bytes, mouseInGrid (mouse_feed true initMouseState bytes).1) ∧
    (∀ x, clampX (clampX x) = clampX x) ∧
    (∀ y, clampY (clampY y) = clampY y) := by
  refine ⟨?_, ?_, ?_⟩
  · intro bytes
    refine mouse_feed_inGrid true bytes initMouseState ?_
    simp [mouseInGrid, initMouseState]
  · intro x
    simp only [clampX]
    split_ifs <;> omega
  · intro y
    simp only [clampY]
    split_ifs <;> omega

/-- C5: the property fails on the code.  MAX_INTERRUPTS is 255, the IDT
array has 255 entries, and registering a handler for vector number 255
is rejected with STATUS_INVALID_PARAM. -/
theorem c5_vector_count_counterexample :
    (interrupt_register_handler 255 1 initIntRegistry).1 = STATUS_INVALID_PARAM ∧
    STATUS_INVALID_PARAM ≠ STATUS_SUCCESS ∧
    MAX_INTERRUPTS ≠ 256 ∧
    idtEntryCount ≠ 256 :=
  ⟨by decide, by decide, by decide, by decide⟩

/-- C5 amended: the vector table and the handler registry cover the 255
vector numbers 0 to 254: the table has 255 entries, registering a
handler succeeds for every vector number below 255 and stores it, and
registering for vector number 255 is rejected with STATUS_INVALID_PARAM
leaving the registry unchanged. -/
theorem c5_registry_covers_255_vectors :
    MAX_INTERRUPTS = 255 ∧ idtEntryCount = 255 ∧
    (∀ v h st, v < 255 →
      (interrupt_register_handler v h st).1 = STATUS_SUCCESS ∧
      (interrupt_register_handler v h st).2 v = h) ∧
    (∀ h st, interrupt_register_handler 255 h st = (STATUS_INVALID_PARAM, st)) := by
  refine ⟨rfl, rfl, ?_, ?_⟩
  · intro v h st hv
    unfold interrupt_register_handler
    rw [if_neg (by simp only [MAX_INTERRUPTS]; omega)]
    exact ⟨rfl, by simp⟩
  · intro h st
    unfold interrupt_register_handler
    rw [if_pos (by simp only [MAX_INTERRUPTS]; omega)]

/-- C5 amended, witness: vector 254 is accepted, vector 255 is
rejected. -/
theorem c5_registry_covers_255_vectors_witness :
    (interrupt_register_handler 254 7 initIntRegistry).1 = STATUS_SUCCESS ∧
    interrupt_register_handler 255 7 initIntRegistry =
      (STATUS_INVALID_PARAM, initIntRegistry) :=
  ⟨(c5_registry_covers_255_vectors.2.2.1 254 7 initIntRegistry (by decide)).1,
   c5_registry_covers_255_vectors.2.2.2 7 initIntRegistry⟩

/-- C6: scancode 0x1E from the fresh state yields ASCII 97 (lower-case
a) with pressed true; after the left-shift make 0x2A, scancode 0x1E
yields ASCII 65 (upper-case A); the break code 0x9E yields pressed
false and changes no modifier bit and no LED state, from any state. -/
theorem c6_keyboard_ascii_events :
    ((keyboard_process_scancode initKbState 0x1E).2.1.key = 97 ∧
     (keyboard_process_scancode initKbState 0x1E).2.1.pressed = true) ∧
    (keyboard_process_scancode
      (keyboard_process_scancode initKbState 0x2A).1 0x1E).2.1.key = 65 ∧
    (∀ s, (keyboard_process_scancode s 0x9E).2.1.pressed = false ∧
          (keyboard_process_scancode s 0x9E).1 = s ∧
          (keyboard_process_scancode s 0x9E).2.2 = []) :=
  ⟨⟨by decide, by decide⟩, by decide, fun s => ⟨rfl, rfl, rfl⟩⟩

/-- C7: from any modifier state, a press of scancode 0x3A flips the
caps-lock latch and performs exactly one LED resync exchange, while its
release 0xBA leaves the whole modifier state unchanged and performs no
LED exchange. -/
theorem c7_caps_lock_toggle_on_press_only :
    ∀ s, (keyboard_process_scancode s 0x3A).1.caps_lock = !s.caps_lock ∧
         (keyboard_process_scancode s 0x3A).2.2.length = 1 ∧
         (keyboard_process_scancode s 0xBA).1 = s ∧
         (keyboard_process_scancode s 0xBA).2.2 = [] :=
  fun s => ⟨rfl, rfl, rfl, rfl⟩

/-- C8: on every IRQ line 0 to 15 (vector 32 + line), installing a
handler over an existing one deterministically replaces it, both calls
returning STATUS_SUCCESS, and uninstalling from the never-installed
initial registry returns STATUS_SUCCESS and leaves the registry
unchanged. -/
theorem c8_replace_policy_and_noop_uninstall :
    (∀ line f g st, line < 16 →
      (interrupt_register_handler (32 + line) f st).1 = STATUS_SUCCESS ∧
      (interrupt_register_handler (32 + line) g
        (interrupt_register_handler (32 + line) f st).2).1 = STATUS_SUCCESS ∧
      (interrupt_register_handler (32 + line) g
        (interrupt_register_handler (32 + line) f st).2).2 (32 + line) = g) ∧
    (∀ line, line < 16 →
      interrupt_unregister_handler (32 + line) initIntRegistry =
        (STATUS_SUCCESS, initIntRegistry)) := by
  constructor
  · intro line f g st hline
    have hge : ¬ (32 + line ≥ MAX_INTERRUPTS) := by
      simp only [MAX_INTERRUPTS]; omega
    simp [interrupt_register_handler, hge]
  · intro line hline
    unfold interrupt_unregister_handler
    rw [if_neg (by simp only [MAX_INTERRUPTS]; omega)]
    refine Prod.ext rfl ?_
    funext v
    show (if v = 32 + line then 0 else initIntRegistry v) = initIntRegistry v
    split_ifs <;> rfl

/-- C8 witness: replacing on line 12 (vector 44) and uninstalling line 5
(vector 37) from the initial registry. -/
theorem c8_replace_policy_witness :
    (interrupt_register_handler 44 9
      (interrupt_register_handler 44 7 initIntRegistry).2).2 44 = 9 ∧
    interrupt_unregister_handler 37 initIntRegistry =
      (STATUS_SUCCESS, initIntRegistry) :=
  ⟨(c8_replace_policy_and_noop_uninstall.1 12 7 9 initIntRegistry (by decide)).2.2,
   c8_replace_policy_and_noop_uninstall.2 5 (by decide)⟩

/-- C9: register_driver rejects a descriptor whose non-NULL name is
already registered, leaving the registry unchanged, and from an empty
registry it accepts exactly 32 distinctly named registrations and
rejects the 33rd. -/
theorem c9_registry_dup_and_capacity :
    (∀ st d n, d.name = some n → n ∈ st.filterMap Driver.name →
      register_driver (some d) st = (DRIVER_ERROR, st)) ∧
    (registerAll testDrivers []).1 =
      List.replicate 32 DRIVER_OK ++ [DRIVER_ERROR] := by
  constructor
  · intro st d n hn hmem
    simp only [register_driver]
    by_cases hfull : st.length ≥ MAX_DRIVERS
    · rw [if_pos hfull]
    · rw [if_neg hfull, if_pos ?_]
      rw [List.any_eq_true]
      obtain ⟨e, he, hee⟩ := List.mem_filterMap.mp hmem
      exact ⟨e, he, by simp [namesMatch, hee, hn]⟩
  · decide

/-- C9 witness: a second descriptor named 3 is rejected when one named 3
is already registered. -/
theorem c9_registry_dup_witness :
    register_driver (some { name := some 3, dtype := 1 })
      [{ name := some 3, dtype := 2 }] =
      (DRIVER_ERROR, [{ name := some 3, dtype := 2 }]) :=
  c9_registry_dup_and_capacity.1 [{ name := some 3, dtype := 2 }]
    { name := some 3, dtype := 1 } 3 rfl (by decide)

/-- C10: unregistering a keyboard callback removes only its earliest
registration and preserves the order of the remaining entries;
unregistering an absent callback leaves the list unchanged; and
registration performs no duplicate check, so the same non-NULL callback
registered twice under capacity occupies two slots. -/
theorem c10_unregister_earliest_only :
    (∀ h l1 l2, h ∉ l1 →
      keyboard_unregister_handler h (l1 ++ h :: l2) = l1 ++ l2) ∧
    (∀ h l, h ∉ l → keyboard_unregister_handler h l = l) ∧
    (∀ h st, h ≠ 0 → st.length + 2 ≤ MAX_KEYBOARD_HANDLERS →
      (keyboard_register_handler h st).1 = STATUS_SUCCESS ∧
      (keyboard_register_handler h (keyboard_register_handler h st).2).1 =
        STATUS_SUCCESS ∧
      (keyboard_register_handler h (keyboard_register_handler h st).2).2 =
        st ++ [h, h]) := by
  refine ⟨?_, ?_, ?_⟩
  · intro h l1 l2 hn
    induction l1 with
    | nil => simp [keyboard_unregister_handler]
    | cons x xs ih =>
      rw [List.mem_cons, not_or] at hn
      show keyboard_unregister_handler h (x :: (xs ++ h :: l2)) = x :: (xs ++ l2)
      rw [keyboard_unregister_handler, if_neg (Ne.symm hn.1), ih hn.2]
  · intro h l hn
    induction l with
    | nil => rfl
    | cons x xs ih =>
      rw [List.mem_cons, not_or] at hn
      rw [keyboard_unregister_handler, if_neg (Ne.symm hn.1), ih hn.2]
  · intro h st hh hcap
    have h1 : ¬ (st.length ≥ MAX_KEYBOARD_HANDLERS) := by
      simp only [MAX_KEYBOARD_HANDLERS] at hcap ⊢; omega
    have h2 : ¬ ((st ++ [h]).length ≥ MAX_KEYBOARD_HANDLERS) := by
      simp only [MAX_KEYBOARD_HANDLERS, List.length_append, List.length_cons,
        List.length_nil] at hcap ⊢
      omega
    simp [keyboard_register_handler, hh, h1, h2]
    rw [if_neg (show ¬ (MAX_KEYBOARD_HANDLERS ≤ st.length + 1) by
      simp only [MAX_KEYBOARD_HANDLERS] at hcap ⊢; omega)]
    exact ⟨rfl, rfl⟩

/-- C10 witness: removing 5 from the list 3, 5, 7, 5 keeps the later 5
in place; removing an absent 9 changes nothing; registering 4 twice
from an empty list fills two slots. -/
theorem c10_unregister_earliest_witness :
    keyboard_unregister_handler 5 [3, 5, 7, 5] = [3, 7, 5] ∧
    keyboard_unregister_handler 9 [3, 7] = [3, 7] ∧
    (keyboard_register_handler 4 (keyboard_register_handler 4 []).2).2 = [4, 4] :=
  ⟨c10_unregister_earliest_only.1 5 [3] [7, 5] (by decide),
   c10_unregister_earliest_only.2.1 9 [3, 7] (by decide),
   (c10_unregister_earliest_only.2.2 4 [] (by decide) (by decide)).2.2⟩

end UniverseK
